import Mathlib

/-!
Verification of the epson-tmx-socket-install repository against its
natural-language specification.

The repository holds two variants of one administrative Go program:

* `src/unnamed/part_000` (the ESC/POS variant): privilege check, printer
  discovery by globbing `/dev/usb/lp*`, an interactive numbered selection
  prompt, writing a systemd socket unit and a template service unit under
  `/etc/systemd/system`, then three `systemctl` invocations with fail-fast
  error handling.
* `src/main.go` (the Epson variant): the same flow without discovery or
  selection; both unit-file contents are constants and the printer path is
  hard-wired to `/dev/usb/lp0`.

The embedding models each `main` as a function from an environment of
effect outcomes (effective uid, glob result, stat results, the stream of
`fmt.Scanln` reads, write outcomes, command outcomes) to the list of
observable effects it performs, in order.  Fatal termination
(`log.Fatal*`) ends the trace with a `fatalE` event; the unbounded
re-prompt loop of `selectPrinter`, when the input stream is exhausted
without a valid choice, is represented by a terminal `hangE` event (no
later effect ever happens).
-/

namespace EpsonTmx

/-- Result of `os.Stat`: we keep the file mode bits, which is all the
program inspects. -/
structure FileInfo where
  mode : Nat
deriving DecidableEq

/-- Go's `os.ModeCharDevice` bit (1 <<< 21). -/
def modeCharDevice : Nat := 2097152

/-- Environment of effect outcomes for one run.

* `euid`: result of `os.Geteuid()`.
* `glob`: result of `filepath.Glob` per pattern (`Except.error` models a
  non-nil error).
* `stat`: result of `os.Stat` per path.
* `input`: the successive results of `fmt.Scanln(&choice)`: `none` models
  a read that returns a non-nil error (unparsable line, EOF), `some c`
  a successfully parsed integer `c`.
* `writeResult`: outcome of `os.WriteFile` per path (`none` = success,
  `some e` = error message `e`).
* `cmdResult`: outcome of `exec.Command(...).CombinedOutput()` per argv
  (`none` = success, `some (e, out)` = error `e` with combined output
  `out`). -/
structure Env where
  euid : Int
  glob : String → Except String (List String)
  stat : String → Except String FileInfo
  input : List (Option Int)
  writeResult : String → Option String
  cmdResult : List String → Option (String × String)

/-- Observable effects of a run, in program order. -/
inductive Event where
  | printE (s : String)
  | globE (pat : String)
  | writeE (path content : String) (perm : Nat)
  | execE (args : List String)
  | fatalE (msg : String)
  | hangE
deriving DecidableEq

/-! Unit-file text (ESC/POS variant, `src/unnamed/part_000`) -/

/-- The constant `socketFileContent` of the ESC/POS variant. -/
def socketFileContent : String :=
  "[Unit]\nDescription=ESC/POS Printer Socket\n\n[Socket]\nListenStream=0.0.0.0:9100\nAccept=yes\n\n[Install]\nWantedBy=sockets.target\n"

/-- Text of the service template before the `%s` verb. -/
def serviceHead : String :=
  "[Unit]\nDescription=ESC/POS Printer Service\n\n[Service]\nExecStart=-/usr/bin/tee /dev/null > "

/-- Text of the service template after the `%s` verb. -/
def serviceTail : String :=
  "\nStandardInput=socket\n"

/-- Function `serviceFileContent`: the `fmt.Sprintf` of the service unit
template with the printer path substituted for the single `%s` verb. -/
def serviceFileContent (printerPath : String) : String :=
  serviceHead ++ printerPath ++ serviceTail

/-! Printer discovery (`findPrinters`) -/

/-- The single glob pattern the program ever uses. -/
def globPat : String := "/dev/usb/lp*"

/-- Test `info.Mode() & os.ModeCharDevice != 0` after a successful stat;
a failed stat is skipped (`continue`). -/
def isCharDev (env : Env) (path : String) : Bool :=
  match env.stat path with
  | Except.error _ => false
  | Except.ok info => info.mode.land modeCharDevice != 0

/-- Function `findPrinters`: glob `/dev/usb/lp*`, wrap a glob error, otherwise keep
exactly the matches that stat as character devices, in glob order. -/
def findPrinters (env : Env) : Except String (List String) :=
  match env.glob globPat with
  | Except.error e => Except.error ("error al buscar impresoras: " ++ e)
  | Except.ok ms => Except.ok (ms.filter (isCharDev env))

/-! Interactive selection (`selectPrinter`) -/

/-- Outcome of `selectPrinter`: an error return, a selected printer
together with the number of `Scanln` reads consumed, or divergence of the
re-prompt loop (input exhausted with no valid choice). -/
inductive SelectOutcome where
  | failure (msg : String)
  | success (printer : String) (reads : Nat)
  | hang
deriving DecidableEq

/-- The accepted-input test of the loop: `Scanln` succeeded and
`1 <= choice <= len(printers)` (the negation of
`err != nil || choice < 1 || choice > len(printers)`). -/
def validChoice (n : Nat) (c : Int) : Bool :=
  decide (1 ≤ c) && decide (c ≤ (n : Int))

/-- The `for { Scanln; if invalid continue; break }` loop: one read per
iteration, stopping at the first valid choice.  `k` counts reads already
consumed. -/
def selectLoop (printers : List String) : List (Option Int) → Nat → SelectOutcome
  | [], _ => SelectOutcome.hang
  | none :: rest, k => selectLoop printers rest (k + 1)
  | some c :: rest, k =>
      if validChoice printers.length c then
        SelectOutcome.success (printers.getD ((c - 1).toNat) "") (k + 1)
      else selectLoop printers rest (k + 1)

/-- Error message returned for an empty printer list. -/
def noPrinterMsg : String := "no se encontraron impresoras USB en /dev/usb/lpX"

/-- Function `selectPrinter`: error on an empty list (before any prompt or read),
otherwise run the selection loop on the input stream. -/
def selectPrinter (printers : List String) (input : List (Option Int)) : SelectOutcome :=
  if printers.length = 0 then SelectOutcome.failure noPrinterMsg
  else selectLoop printers input 0

/-- The numbered listing printed by `for i, p := range printers`
(`fmt.Printf("%d. %s\n", i+1, p)`), with `i` starting at the given base. -/
def numberedLines : Nat → List String → List String
  | _, [] => []
  | i, p :: rest => (toString (i + 1) ++ ". " ++ p) :: numberedLines (i + 1) rest

/-- Lines printed by `selectPrinter` before the read loop: nothing for an
empty list (the error return comes first), else the header and the
numbered list. -/
def selectPrompt (printers : List String) : List String :=
  if printers.length = 0 then []
  else "\nSe encontraron las siguientes impresoras USB:" :: numberedLines 0 printers

/-! main (ESC/POS variant) -/

/-- Destination of the socket unit. -/
def socketFilePath : String := "/etc/systemd/system/escpos-printer.socket"

/-- Destination of the service template unit. -/
def serviceFilePath : String := "/etc/systemd/system/escpos-printer@.service"

/-- The fixed `commands` slice of the ESC/POS variant. -/
def commands : List (List String) :=
  [["systemctl", "daemon-reload"],
   ["systemctl", "enable", "--now", "escpos-printer.socket"],
   ["systemctl", "restart", "escpos-printer.socket"]]

/-- Message of the command-failure log call of the ESC/POS variant. -/
def cmdFailMsg (c : List String) (e out : String) : String :=
  "Error al ejecutar el comando '" ++ String.intercalate " " c ++ "': " ++ e
    ++ "\nSalida: " ++ out

/-- The command loop: run each argv in order; on the first non-nil error,
terminate fatally with the formatted message and run nothing further. -/
def runCmds (env : Env) (fmtMsg : List String → String → String → String) :
    List (List String) → List Event
  | [] => []
  | c :: rest =>
      Event.execE c ::
      match env.cmdResult c with
      | some eo => [Event.fatalE (fmtMsg c eo.1 eo.2)]
      | none => runCmds env fmtMsg rest

/-- Message of the privilege-check fatal log of the ESC/POS variant. -/
def rootMsg : String := "Este programa debe ejecutarse como root o con sudo."

/-- Opening banner of the ESC/POS variant. -/
def banner : String := "Iniciando la configuración del servicio de impresora ESC/POS..."

/-- Steps 4–5 of the ESC/POS `main` once printer `p` is selected: write
the socket unit, then the service unit, then run the commands, aborting
fatally on the first write error. -/
def writePhase (env : Env) (p : String) : List Event :=
  Event.writeE socketFilePath socketFileContent 420 ::
  match env.writeResult socketFilePath with
  | some e => [Event.fatalE ("Error al escribir el archivo de socket: " ++ e)]
  | none =>
      Event.writeE serviceFilePath (serviceFileContent p) 420 ::
      match env.writeResult serviceFilePath with
      | some e => [Event.fatalE ("Error al escribir el archivo de servicio: " ++ e)]
      | none => runCmds env cmdFailMsg commands

/-- The ESC/POS variant's `main` as an effect trace.  Informational
`fmt.Println` progress lines other than the opening banner are omitted
from the trace; user-visible selection output is modelled separately by
`selectPrompt`. -/
def mainTrace (env : Env) : List Event :=
  Event.printE banner ::
  if env.euid ≠ 0 then [Event.fatalE rootMsg]
  else
    Event.globE globPat ::
    match findPrinters env with
    | Except.error e => [Event.fatalE ("Error: " ++ e)]
    | Except.ok printers =>
      match selectPrinter printers env.input with
      | SelectOutcome.failure e => [Event.fatalE ("Error: " ++ e)]
      | SelectOutcome.hang => [Event.hangE]
      | SelectOutcome.success p _ => writePhase env p

/-! main (Epson variant, `src/main.go`) -/

/-- The constant `socketFileContent` of the Epson variant. -/
def epsonSocketFileContent : String :=
  "[Unit]\nDescription=Epson Printer Socket\n\n[Socket]\nListenStream=0.0.0.0:9100\nAccept=yes\n\n[Install]\nWantedBy=sockets.target\n"

/-- The constant `serviceFileContent` of the Epson variant. -/
def epsonServiceFileContent : String :=
  "[Unit]\nDescription=Epson Printer Service\n\n[Service]\nExecStart=-/usr/bin/tee /dev/null > /dev/usb/lp0\nStandardInput=socket\n"

/-- Destination of the Epson socket unit. -/
def epsonSocketFilePath : String := "/etc/systemd/system/epson-printer.socket"

/-- Destination of the Epson service template unit. -/
def epsonServiceFilePath : String := "/etc/systemd/system/epson-printer@.service"

/-- The fixed `commands` slice of the Epson variant. -/
def epsonCommands : List (List String) :=
  [["systemctl", "daemon-reload"],
   ["systemctl", "enable", "--now", "epson-printer.socket"],
   ["systemctl", "restart", "epson-printer.socket"]]

/-- Message of the command-failure log call of the Epson variant. -/
def epsonCmdFailMsg (c : List String) (e out : String) : String :=
  "Failed to execute command '" ++ String.intercalate " " c ++ "': " ++ e
    ++ "\nOutput: " ++ out

/-- Message of the privilege-check fatal log of the Epson variant. -/
def epsonRootMsg : String := "This program must be run as root or with sudo."

/-- Opening banner of the Epson variant. -/
def epsonBanner : String := "Starting Epson Printer Service Setup..."

/-- The Epson variant's `main` as an effect trace: privilege check, the
two unit-file writes (socket first), then the three commands, aborting
fatally on the first error. -/
def epsonMainTrace (env : Env) : List Event :=
  Event.printE epsonBanner ::
  if env.euid ≠ 0 then [Event.fatalE epsonRootMsg]
  else
    Event.writeE epsonSocketFilePath epsonSocketFileContent 420 ::
    match env.writeResult epsonSocketFilePath with
    | some e => [Event.fatalE ("Failed to write socket file: " ++ e)]
    | none =>
        Event.writeE epsonServiceFilePath epsonServiceFileContent 420 ::
        match env.writeResult epsonServiceFilePath with
        | some e => [Event.fatalE ("Failed to write service file: " ++ e)]
        | none => runCmds env epsonCmdFailMsg epsonCommands

/-! Trace observers -/

/-- The `(path, content)` pairs of the write events of a trace, in order. -/
def writeEvents : List Event → List (String × String)
  | [] => []
  | Event.writeE p c _ :: t => (p, c) :: writeEvents t
  | _ :: t => writeEvents t

/-- The argv lists of the external-command events of a trace, in order. -/
def execEvents : List Event → List (List String)
  | [] => []
  | Event.execE c :: t => c :: execEvents t
  | _ :: t => execEvents t

/-- The messages of the fatal events of a trace, in order. -/
def fatalEvents : List Event → List String
  | [] => []
  | Event.fatalE m :: t => m :: fatalEvents t
  | _ :: t => fatalEvents t

/-- The glob patterns looked up by a trace, in order. -/
def globEvents : List Event → List String
  | [] => []
  | Event.globE g :: t => g :: globEvents t
  | _ :: t => globEvents t

/-- The trace ends in fatal termination. -/
def endsFatal (t : List Event) : Prop :=
  ∃ m, t.getLast? = some (Event.fatalE m)

/-- Substring relation: `needle` occurs contiguously inside `hay`. -/
def hasSubstr (hay needle : String) : Prop :=
  ∃ a b : List Char, hay.data = a ++ needle.data ++ b

/-! Observer simp lemmas -/

@[simp] lemma writeEvents_nil : writeEvents [] = [] := rfl

@[simp] lemma writeEvents_write (p c : String) (m : Nat) (t : List Event) :
    writeEvents (Event.writeE p c m :: t) = (p, c) :: writeEvents t := rfl

@[simp] lemma writeEvents_print (s : String) (t : List Event) :
    writeEvents (Event.printE s :: t) = writeEvents t := rfl

@[simp] lemma writeEvents_glob (g : String) (t : List Event) :
    writeEvents (Event.globE g :: t) = writeEvents t := rfl

@[simp] lemma writeEvents_exec (c : List String) (t : List Event) :
    writeEvents (Event.execE c :: t) = writeEvents t := rfl

@[simp] lemma writeEvents_fatal (m : String) (t : List Event) :
    writeEvents (Event.fatalE m :: t) = writeEvents t := rfl

@[simp] lemma writeEvents_hang (t : List Event) :
    writeEvents (Event.hangE :: t) = writeEvents t := rfl

@[simp] lemma execEvents_nil : execEvents [] = [] := rfl

@[simp] lemma execEvents_exec (c : List String) (t : List Event) :
    execEvents (Event.execE c :: t) = c :: execEvents t := rfl

@[simp] lemma execEvents_write (p c : String) (m : Nat) (t : List Event) :
    execEvents (Event.writeE p c m :: t) = execEvents t := rfl

@[simp] lemma execEvents_print (s : String) (t : List Event) :
    execEvents (Event.printE s :: t) = execEvents t := rfl

@[simp] lemma execEvents_glob (g : String) (t : List Event) :
    execEvents (Event.globE g :: t) = execEvents t := rfl

@[simp] lemma execEvents_fatal (m : String) (t : List Event) :
    execEvents (Event.fatalE m :: t) = execEvents t := rfl

@[simp] lemma execEvents_hang (t : List Event) :
    execEvents (Event.hangE :: t) = execEvents t := rfl

@[simp] lemma fatalEvents_nil : fatalEvents [] = [] := rfl

@[simp] lemma fatalEvents_fatal (m : String) (t : List Event) :
    fatalEvents (Event.fatalE m :: t) = m :: fatalEvents t := rfl

@[simp] lemma fatalEvents_write (p c : String) (m : Nat) (t : List Event) :
    fatalEvents (Event.writeE p c m :: t) = fatalEvents t := rfl

@[simp] lemma fatalEvents_print (s : String) (t : List Event) :
    fatalEvents (Event.printE s :: t) = fatalEvents t := rfl

@[simp] lemma fatalEvents_glob (g : String) (t : List Event) :
    fatalEvents (Event.globE g :: t) = fatalEvents t := rfl

@[simp] lemma fatalEvents_exec (c : List String) (t : List Event) :
    fatalEvents (Event.execE c :: t) = fatalEvents t := rfl

@[simp] lemma fatalEvents_hang (t : List Event) :
    fatalEvents (Event.hangE :: t) = fatalEvents t := rfl

/-- Appending strings concatenates the underlying character lists. -/
lemma strData_append (a b : String) : (a ++ b).data = a.data ++ b.data := rfl

/-! Shape lemmas for the two main traces -/

/-- The command loop performs no file write. -/
lemma writeEvents_runCmds (env : Env) (f : List String → String → String → String)
    (cs : List (List String)) : writeEvents (runCmds env f cs) = [] := by
  induction cs with
  | nil => rfl
  | cons c rest ih =>
    simp only [runCmds]
    cases env.cmdResult c with
    | none => simpa using ih
    | some eo => rfl

/-- Case analysis on the ESC/POS trace: each run is a privilege failure,
a glob failure, a selection failure, selection-loop divergence, or
reaches the write phase with the selected printer. -/
lemma mainTrace_shape (env : Env) :
    (env.euid ≠ 0 ∧ mainTrace env = [Event.printE banner, Event.fatalE rootMsg]) ∨
    (env.euid = 0 ∧ ∃ e, findPrinters env = Except.error e ∧
      mainTrace env = [Event.printE banner, Event.globE globPat,
        Event.fatalE ("Error: " ++ e)]) ∨
    (env.euid = 0 ∧ ∃ ps m, findPrinters env = Except.ok ps ∧
      selectPrinter ps env.input = SelectOutcome.failure m ∧
      mainTrace env = [Event.printE banner, Event.globE globPat,
        Event.fatalE ("Error: " ++ m)]) ∨
    (env.euid = 0 ∧ ∃ ps, findPrinters env = Except.ok ps ∧
      selectPrinter ps env.input = SelectOutcome.hang ∧
      mainTrace env = [Event.printE banner, Event.globE globPat, Event.hangE]) ∨
    (env.euid = 0 ∧ ∃ ps p r, findPrinters env = Except.ok ps ∧
      selectPrinter ps env.input = SelectOutcome.success p r ∧
      mainTrace env = Event.printE banner :: Event.globE globPat :: writePhase env p) := by
  by_cases h : env.euid = 0
  · cases hfp : findPrinters env with
    | error e =>
        refine Or.inr (Or.inl ⟨h, e, rfl, ?_⟩)
        simp [mainTrace, h, hfp]
    | ok ps =>
        cases hsel : selectPrinter ps env.input with
        | failure m =>
            refine Or.inr (Or.inr (Or.inl ⟨h, ps, m, rfl, hsel, ?_⟩))
            simp [mainTrace, h, hfp, hsel]
        | hang =>
            refine Or.inr (Or.inr (Or.inr (Or.inl ⟨h, ps, rfl, hsel, ?_⟩)))
            simp [mainTrace, h, hfp, hsel]
        | success p r =>
            refine Or.inr (Or.inr (Or.inr (Or.inr ⟨h, ps, p, r, rfl, hsel, ?_⟩)))
            simp [mainTrace, h, hfp, hsel]
  · exact Or.inl ⟨h, by simp [mainTrace, h]⟩

/-- Case analysis on the write phase: socket write fails, or socket
succeeds and service write fails, or both succeed and the commands run. -/
lemma writePhase_shape (env : Env) (p : String) :
    (∃ e, env.writeResult socketFilePath = some e ∧
      writePhase env p = [Event.writeE socketFilePath socketFileContent 420,
        Event.fatalE ("Error al escribir el archivo de socket: " ++ e)]) ∨
    (env.writeResult socketFilePath = none ∧
      ∃ e, env.writeResult serviceFilePath = some e ∧
      writePhase env p = [Event.writeE socketFilePath socketFileContent 420,
        Event.writeE serviceFilePath (serviceFileContent p) 420,
        Event.fatalE ("Error al escribir el archivo de servicio: " ++ e)]) ∨
    (env.writeResult socketFilePath = none ∧
      env.writeResult serviceFilePath = none ∧
      writePhase env p = Event.writeE socketFilePath socketFileContent 420 ::
        Event.writeE serviceFilePath (serviceFileContent p) 420 ::
        runCmds env cmdFailMsg commands) := by
  cases h1 : env.writeResult socketFilePath with
  | some e => exact Or.inl ⟨e, rfl, by simp [writePhase, h1]⟩
  | none =>
      cases h2 : env.writeResult serviceFilePath with
      | some e =>
          exact Or.inr (Or.inl ⟨rfl, e, rfl, by simp [writePhase, h1, h2]⟩)
      | none =>
          exact Or.inr (Or.inr ⟨rfl, rfl, by simp [writePhase, h1, h2]⟩)

/-- Case analysis on the Epson trace. -/
lemma epsonMainTrace_shape (env : Env) :
    (env.euid ≠ 0 ∧
      epsonMainTrace env = [Event.printE epsonBanner, Event.fatalE epsonRootMsg]) ∨
    (env.euid = 0 ∧ ∃ e, env.writeResult epsonSocketFilePath = some e ∧
      epsonMainTrace env = [Event.printE epsonBanner,
        Event.writeE epsonSocketFilePath epsonSocketFileContent 420,
        Event.fatalE ("Failed to write socket file: " ++ e)]) ∨
    (env.euid = 0 ∧ env.writeResult epsonSocketFilePath = none ∧
      ∃ e, env.writeResult epsonServiceFilePath = some e ∧
      epsonMainTrace env = [Event.printE epsonBanner,
        Event.writeE epsonSocketFilePath epsonSocketFileContent 420,
        Event.writeE epsonServiceFilePath epsonServiceFileContent 420,
        Event.fatalE ("Failed to write service file: " ++ e)]) ∨
    (env.euid = 0 ∧ env.writeResult epsonSocketFilePath = none ∧
      env.writeResult epsonServiceFilePath = none ∧
      epsonMainTrace env = Event.printE epsonBanner ::
        Event.writeE epsonSocketFilePath epsonSocketFileContent 420 ::
        Event.writeE epsonServiceFilePath epsonServiceFileContent 420 ::
        runCmds env epsonCmdFailMsg epsonCommands) := by
  by_cases h : env.euid = 0
  · cases h1 : env.writeResult epsonSocketFilePath with
    | some e =>
        exact Or.inr (Or.inl ⟨h, e, rfl, by simp [epsonMainTrace, h, h1]⟩)
    | none =>
        cases h2 : env.writeResult epsonServiceFilePath with
        | some e =>
            exact Or.inr (Or.inr (Or.inl ⟨h, rfl, e, rfl,
              by simp [epsonMainTrace, h, h1, h2]⟩))
        | none =>
            exact Or.inr (Or.inr (Or.inr ⟨h, rfl, rfl,
              by simp [epsonMainTrace, h, h1, h2]⟩))
  · exact Or.inl ⟨h, by simp [epsonMainTrace, h]⟩

/-! A concrete base environment for witnesses -/

/-- A fully successful root run that discovers `/dev/usb/lp0` and selects
it with the single read `1`. -/
def baseEnv : Env where
  euid := 0
  glob := fun _ => Except.ok ["/dev/usb/lp0"]
  stat := fun _ => Except.ok ⟨modeCharDevice⟩
  input := [some 1]
  writeResult := fun _ => none
  cmdResult := fun _ => none

/-- A read the loop rejects: a failed `Scanln` or an out-of-range value. -/
def invalidRead (n : Nat) : Option Int → Bool
  | none => true
  | some c => !validChoice n c

/-- A command oracle whose only failure is the second ESC/POS command. -/
def failSecondCmd : List String → Option (String × String) := fun c =>
  if c = ["systemctl", "enable", "--now", "escpos-printer.socket"] then
    some ("exit status 1", "Failed to enable unit")
  else none

/-! Theorems -/

/-- ESC/POS half of claim C1: write events are always a prefix of
"socket unit, then service unit"; commands imply both writes succeeded;
a failing write means no command ran and the run ended fatally. -/
lemma c1_escpos (env : Env) :
    (writeEvents (mainTrace env) = [] ∨
     writeEvents (mainTrace env) = [(socketFilePath, socketFileContent)] ∨
     ∃ p, writeEvents (mainTrace env) =
       [(socketFilePath, socketFileContent), (serviceFilePath, serviceFileContent p)]) ∧
    (execEvents (mainTrace env) ≠ [] →
      env.writeResult socketFilePath = none ∧ env.writeResult serviceFilePath = none ∧
      ∃ p, writeEvents (mainTrace env) =
        [(socketFilePath, socketFileContent), (serviceFilePath, serviceFileContent p)]) ∧
    ((env.writeResult socketFilePath ≠ none ∨ env.writeResult serviceFilePath ≠ none) →
      execEvents (mainTrace env) = [] ∧
      (writeEvents (mainTrace env) ≠ [] → endsFatal (mainTrace env))) := by
  rcases mainTrace_shape env with ⟨h, htr⟩ | ⟨h, e, hfp, htr⟩ |
    ⟨h, ps, m, hfp, hsel, htr⟩ | ⟨h, ps, hfp, hsel, htr⟩ |
    ⟨h, ps, p, r, hfp, hsel, htr⟩
  · refine ⟨Or.inl (by rw [htr]; rfl), ?_, ?_⟩
    · intro hex; rw [htr] at hex; simp at hex
    · intro _
      refine ⟨by rw [htr]; rfl, ?_⟩
      intro hw; rw [htr] at hw; simp at hw
  · refine ⟨Or.inl (by rw [htr]; rfl), ?_, ?_⟩
    · intro hex; rw [htr] at hex; simp at hex
    · intro _
      refine ⟨by rw [htr]; rfl, ?_⟩
      intro hw; rw [htr] at hw; simp at hw
  · refine ⟨Or.inl (by rw [htr]; rfl), ?_, ?_⟩
    · intro hex; rw [htr] at hex; simp at hex
    · intro _
      refine ⟨by rw [htr]; rfl, ?_⟩
      intro hw; rw [htr] at hw; simp at hw
  · refine ⟨Or.inl (by rw [htr]; rfl), ?_, ?_⟩
    · intro hex; rw [htr] at hex; simp at hex
    · intro _
      refine ⟨by rw [htr]; rfl, ?_⟩
      intro hw; rw [htr] at hw; simp at hw
  · rcases writePhase_shape env p with ⟨e, h1, hwp⟩ | ⟨h1, e, h2, hwp⟩ | ⟨h1, h2, hwp⟩
    · refine ⟨Or.inr (Or.inl (by rw [htr, hwp]; rfl)), ?_, ?_⟩
      · intro hex; rw [htr, hwp] at hex; simp at hex
      · intro _
        refine ⟨by rw [htr, hwp]; rfl, ?_⟩
        intro _
        exact ⟨"Error al escribir el archivo de socket: " ++ e, by rw [htr, hwp]; rfl⟩
    · refine ⟨Or.inr (Or.inr ⟨p, by rw [htr, hwp]; rfl⟩), ?_, ?_⟩
      · intro hex; rw [htr, hwp] at hex; simp at hex
      · intro _
        refine ⟨by rw [htr, hwp]; rfl, ?_⟩
        intro _
        exact ⟨"Error al escribir el archivo de servicio: " ++ e, by rw [htr, hwp]; rfl⟩
    · refine ⟨Or.inr (Or.inr ⟨p, ?_⟩), ?_, ?_⟩
      · rw [htr, hwp]; simp [writeEvents_runCmds]
      · intro _
        exact ⟨h1, h2, p, by rw [htr, hwp]; simp [writeEvents_runCmds]⟩
      · intro hbad
        cases hbad with
        | inl hb => exact absurd h1 hb
        | inr hb => exact absurd h2 hb

/-- Epson half of claim C1. -/
lemma c1_epson (env : Env) :
    (writeEvents (epsonMainTrace env) = [] ∨
     writeEvents (epsonMainTrace env) = [(epsonSocketFilePath, epsonSocketFileContent)] ∨
     writeEvents (epsonMainTrace env) =
       [(epsonSocketFilePath, epsonSocketFileContent),
        (epsonServiceFilePath, epsonServiceFileContent)]) ∧
    (execEvents (epsonMainTrace env) ≠ [] →
      env.writeResult epsonSocketFilePath = none ∧
      env.writeResult epsonServiceFilePath = none ∧
      writeEvents (epsonMainTrace env) =
        [(epsonSocketFilePath, epsonSocketFileContent),
         (epsonServiceFilePath, epsonServiceFileContent)]) ∧
    ((env.writeResult epsonSocketFilePath ≠ none ∨
      env.writeResult epsonServiceFilePath ≠ none) →
      execEvents (epsonMainTrace env) = [] ∧
      (writeEvents (epsonMainTrace env) ≠ [] → endsFatal (epsonMainTrace env))) := by
  rcases epsonMainTrace_shape env with ⟨h, htr⟩ | ⟨h, e, h1, htr⟩ |
    ⟨h, h1, e, h2, htr⟩ | ⟨h, h1, h2, htr⟩
  · refine ⟨Or.inl (by rw [htr]; rfl), ?_, ?_⟩
    · intro hex; rw [htr] at hex; simp at hex
    · intro _
      refine ⟨by rw [htr]; rfl, ?_⟩
      intro hw; rw [htr] at hw; simp at hw
  · refine ⟨Or.inr (Or.inl (by rw [htr]; rfl)), ?_, ?_⟩
    · intro hex; rw [htr] at hex; simp at hex
    · intro _
      refine ⟨by rw [htr]; rfl, ?_⟩
      intro _
      exact ⟨"Failed to write socket file: " ++ e, by rw [htr]; rfl⟩
  · refine ⟨Or.inr (Or.inr (by rw [htr]; rfl)), ?_, ?_⟩
    · intro hex; rw [htr] at hex; simp at hex
    · intro _
      refine ⟨by rw [htr]; rfl, ?_⟩
      intro _
      exact ⟨"Failed to write service file: " ++ e, by rw [htr]; rfl⟩
  · refine ⟨Or.inr (Or.inr ?_), ?_, ?_⟩
    · rw [htr]; simp [writeEvents_runCmds]
    · intro _
      exact ⟨h1, h2, by rw [htr]; simp [writeEvents_runCmds]⟩
    · intro hbad
      cases hbad with
      | inl hb => exact absurd h1 hb
      | inr hb => exact absurd h2 hb

/-- Claim C1: in every run of either variant, the unit files are written
socket first and are the only writes; any `systemctl` invocation implies
both unit-file writes succeeded beforehand; and if either write fails the
run performs no `systemctl` command and ends fatally. -/
theorem unit_files_before_systemctl (env : Env) :
    ((writeEvents (mainTrace env) = [] ∨
      writeEvents (mainTrace env) = [(socketFilePath, socketFileContent)] ∨
      ∃ p, writeEvents (mainTrace env) =
        [(socketFilePath, socketFileContent), (serviceFilePath, serviceFileContent p)]) ∧
     (execEvents (mainTrace env) ≠ [] →
       env.writeResult socketFilePath = none ∧ env.writeResult serviceFilePath = none ∧
       ∃ p, writeEvents (mainTrace env) =
         [(socketFilePath, socketFileContent), (serviceFilePath, serviceFileContent p)]) ∧
     ((env.writeResult socketFilePath ≠ none ∨ env.writeResult serviceFilePath ≠ none) →
       execEvents (mainTrace env) = [] ∧
       (writeEvents (mainTrace env) ≠ [] → endsFatal (mainTrace env)))) ∧
    ((writeEvents (epsonMainTrace env) = [] ∨
      writeEvents (epsonMainTrace env) = [(epsonSocketFilePath, epsonSocketFileContent)] ∨
      writeEvents (epsonMainTrace env) =
        [(epsonSocketFilePath, epsonSocketFileContent),
         (epsonServiceFilePath, epsonServiceFileContent)]) ∧
     (execEvents (epsonMainTrace env) ≠ [] →
       env.writeResult epsonSocketFilePath = none ∧
       env.writeResult epsonServiceFilePath = none ∧
       writeEvents (epsonMainTrace env) =
         [(epsonSocketFilePath, epsonSocketFileContent),
          (epsonServiceFilePath, epsonServiceFileContent)]) ∧
     ((env.writeResult epsonSocketFilePath ≠ none ∨
       env.writeResult epsonServiceFilePath ≠ none) →
       execEvents (epsonMainTrace env) = [] ∧
       (writeEvents (epsonMainTrace env) ≠ [] → endsFatal (epsonMainTrace env)))) :=
  ⟨c1_escpos env, c1_epson env⟩

/-- Witness for C1: in the fully successful base run, commands do run and
the two unit files were written, socket first. -/
theorem unit_files_before_systemctl_witness :
    ∃ p, writeEvents (mainTrace baseEnv) =
      [(socketFilePath, socketFileContent), (serviceFilePath, serviceFileContent p)] :=
  ((unit_files_before_systemctl baseEnv).1.2.1 (by decide)).2.2

/-- The ESC/POS command-failure message contains the error text. -/
lemma cmdFailMsg_has_err (c : List String) (e out : String) :
    hasSubstr (cmdFailMsg c e out) e :=
  ⟨("Error al ejecutar el comando '" ++ String.intercalate " " c ++ "': ").data,
   ("\nSalida: " ++ out).data,
   by simp [cmdFailMsg, hasSubstr, strData_append]⟩

/-- The ESC/POS command-failure message contains the combined output. -/
lemma cmdFailMsg_has_out (c : List String) (e out : String) :
    hasSubstr (cmdFailMsg c e out) out :=
  ⟨("Error al ejecutar el comando '" ++ String.intercalate " " c ++ "': " ++ e
      ++ "\nSalida: ").data, [],
   by simp [cmdFailMsg, hasSubstr, strData_append]⟩

/-- The Epson command-failure message contains the error text. -/
lemma epsonCmdFailMsg_has_err (c : List String) (e out : String) :
    hasSubstr (epsonCmdFailMsg c e out) e :=
  ⟨("Failed to execute command '" ++ String.intercalate " " c ++ "': ").data,
   ("\nOutput: " ++ out).data,
   by simp [epsonCmdFailMsg, hasSubstr, strData_append]⟩

/-- The Epson command-failure message contains the combined output. -/
lemma epsonCmdFailMsg_has_out (c : List String) (e out : String) :
    hasSubstr (epsonCmdFailMsg c e out) out :=
  ⟨("Failed to execute command '" ++ String.intercalate " " c ++ "': " ++ e
      ++ "\nOutput: ").data, [],
   by simp [epsonCmdFailMsg, hasSubstr, strData_append]⟩

/-- Claim C2: once the unit files are written, each variant runs exactly its
three fixed `systemctl` commands in order; the first failing command ends
the run fatally — with a message carrying the error and the combined
output — and no later command is executed; when all three succeed there
is no fatal event. -/
theorem systemctl_sequence_fail_fast (env : Env) (ps : List String) (p : String) (r : Nat)
    (h0 : env.euid = 0)
    (hfp : findPrinters env = Except.ok ps)
    (hsel : selectPrinter ps env.input = SelectOutcome.success p r)
    (hw1 : env.writeResult socketFilePath = none)
    (hw2 : env.writeResult serviceFilePath = none)
    (hew1 : env.writeResult epsonSocketFilePath = none)
    (hew2 : env.writeResult epsonServiceFilePath = none) :
    commands = [["systemctl", "daemon-reload"],
                ["systemctl", "enable", "--now", "escpos-printer.socket"],
                ["systemctl", "restart", "escpos-printer.socket"]] ∧
    epsonCommands = [["systemctl", "daemon-reload"],
                     ["systemctl", "enable", "--now", "epson-printer.socket"],
                     ["systemctl", "restart", "epson-printer.socket"]] ∧
    (∀ e out, env.cmdResult ["systemctl", "daemon-reload"] = some (e, out) →
      execEvents (mainTrace env) = [["systemctl", "daemon-reload"]] ∧
      fatalEvents (mainTrace env) = [cmdFailMsg ["systemctl", "daemon-reload"] e out] ∧
      endsFatal (mainTrace env) ∧
      hasSubstr (cmdFailMsg ["systemctl", "daemon-reload"] e out) e ∧
      hasSubstr (cmdFailMsg ["systemctl", "daemon-reload"] e out) out) ∧
    (∀ e out, env.cmdResult ["systemctl", "daemon-reload"] = none →
      env.cmdResult ["systemctl", "enable", "--now", "escpos-printer.socket"]
        = some (e, out) →
      execEvents (mainTrace env) = [["systemctl", "daemon-reload"],
        ["systemctl", "enable", "--now", "escpos-printer.socket"]] ∧
      fatalEvents (mainTrace env) =
        [cmdFailMsg ["systemctl", "enable", "--now", "escpos-printer.socket"] e out] ∧
      endsFatal (mainTrace env) ∧
      hasSubstr (cmdFailMsg ["systemctl", "enable", "--now", "escpos-printer.socket"] e out) e ∧
      hasSubstr (cmdFailMsg ["systemctl", "enable", "--now", "escpos-printer.socket"] e out) out) ∧
    (∀ e out, env.cmdResult ["systemctl", "daemon-reload"] = none →
      env.cmdResult ["systemctl", "enable", "--now", "escpos-printer.socket"] = none →
      env.cmdResult ["systemctl", "restart", "escpos-printer.socket"] = some (e, out) →
      execEvents (mainTrace env) = commands ∧
      fatalEvents (mainTrace env) =
        [cmdFailMsg ["systemctl", "restart", "escpos-printer.socket"] e out] ∧
      endsFatal (mainTrace env) ∧
      hasSubstr (cmdFailMsg ["systemctl", "restart", "escpos-printer.socket"] e out) e ∧
      hasSubstr (cmdFailMsg ["systemctl", "restart", "escpos-printer.socket"] e out) out) ∧
    ((∀ c ∈ commands, env.cmdResult c = none) →
      execEvents (mainTrace env) = commands ∧ fatalEvents (mainTrace env) = []) ∧
    (∀ e out, env.cmdResult ["systemctl", "daemon-reload"] = some (e, out) →
      execEvents (epsonMainTrace env) = [["systemctl", "daemon-reload"]] ∧
      fatalEvents (epsonMainTrace env) =
        [epsonCmdFailMsg ["systemctl", "daemon-reload"] e out] ∧
      endsFatal (epsonMainTrace env)) ∧
    (∀ e out, env.cmdResult ["systemctl", "daemon-reload"] = none →
      env.cmdResult ["systemctl", "enable", "--now", "epson-printer.socket"]
        = some (e, out) →
      execEvents (epsonMainTrace env) = [["systemctl", "daemon-reload"],
        ["systemctl", "enable", "--now", "epson-printer.socket"]] ∧
      fatalEvents (epsonMainTrace env) =
        [epsonCmdFailMsg ["systemctl", "enable", "--now", "epson-printer.socket"] e out] ∧
      endsFatal (epsonMainTrace env) ∧
      hasSubstr (epsonCmdFailMsg
        ["systemctl", "enable", "--now", "epson-printer.socket"] e out) e ∧
      hasSubstr (epsonCmdFailMsg
        ["systemctl", "enable", "--now", "epson-printer.socket"] e out) out) ∧
    (∀ e out, env.cmdResult ["systemctl", "daemon-reload"] = none →
      env.cmdResult ["systemctl", "enable", "--now", "epson-printer.socket"] = none →
      env.cmdResult ["systemctl", "restart", "epson-printer.socket"] = some (e, out) →
      execEvents (epsonMainTrace env) = epsonCommands ∧
      fatalEvents (epsonMainTrace env) =
        [epsonCmdFailMsg ["systemctl", "restart", "epson-printer.socket"] e out] ∧
      endsFatal (epsonMainTrace env)) ∧
    ((∀ c ∈ epsonCommands, env.cmdResult c = none) →
      execEvents (epsonMainTrace env) = epsonCommands ∧
      fatalEvents (epsonMainTrace env) = []) := by
  have htr : mainTrace env = Event.printE banner :: Event.globE globPat ::
      Event.writeE socketFilePath socketFileContent 420 ::
      Event.writeE serviceFilePath (serviceFileContent p) 420 ::
      runCmds env cmdFailMsg commands := by
    simp [mainTrace, h0, hfp, hsel, writePhase, hw1, hw2]
  have htre : epsonMainTrace env = Event.printE epsonBanner ::
      Event.writeE epsonSocketFilePath epsonSocketFileContent 420 ::
      Event.writeE epsonServiceFilePath epsonServiceFileContent 420 ::
      runCmds env epsonCmdFailMsg epsonCommands := by
    simp [epsonMainTrace, h0, hew1, hew2]
  refine ⟨rfl, rfl, ?_, ?_, ?_, ?_, ?_, ?_, ?_, ?_⟩
  · intro e out hc1
    have ht2 : mainTrace env = [Event.printE banner, Event.globE globPat,
        Event.writeE socketFilePath socketFileContent 420,
        Event.writeE serviceFilePath (serviceFileContent p) 420,
        Event.execE ["systemctl", "daemon-reload"],
        Event.fatalE (cmdFailMsg ["systemctl", "daemon-reload"] e out)] := by
      rw [htr]; simp [commands, runCmds, hc1]
    exact ⟨by rw [ht2]; rfl, by rw [ht2]; rfl, ⟨_, by rw [ht2]; rfl⟩,
      cmdFailMsg_has_err _ e out, cmdFailMsg_has_out _ e out⟩
  · intro e out hc1 hc2
    have ht2 : mainTrace env = [Event.printE banner, Event.globE globPat,
        Event.writeE socketFilePath socketFileContent 420,
        Event.writeE serviceFilePath (serviceFileContent p) 420,
        Event.execE ["systemctl", "daemon-reload"],
        Event.execE ["systemctl", "enable", "--now", "escpos-printer.socket"],
        Event.fatalE (cmdFailMsg
          ["systemctl", "enable", "--now", "escpos-printer.socket"] e out)] := by
      rw [htr]; simp [commands, runCmds, hc1, hc2]
    exact ⟨by rw [ht2]; rfl, by rw [ht2]; rfl, ⟨_, by rw [ht2]; rfl⟩,
      cmdFailMsg_has_err _ e out, cmdFailMsg_has_out _ e out⟩
  · intro e out hc1 hc2 hc3
    have ht2 : mainTrace env = [Event.printE banner, Event.globE globPat,
        Event.writeE socketFilePath socketFileContent 420,
        Event.writeE serviceFilePath (serviceFileContent p) 420,
        Event.execE ["systemctl", "daemon-reload"],
        Event.execE ["systemctl", "enable", "--now", "escpos-printer.socket"],
        Event.execE ["systemctl", "restart", "escpos-printer.socket"],
        Event.fatalE (cmdFailMsg
          ["systemctl", "restart", "escpos-printer.socket"] e out)] := by
      rw [htr]; simp [commands, runCmds, hc1, hc2, hc3]
    exact ⟨by rw [ht2]; rfl, by rw [ht2]; rfl, ⟨_, by rw [ht2]; rfl⟩,
      cmdFailMsg_has_err _ e out, cmdFailMsg_has_out _ e out⟩
  · intro hall
    have hc1 := hall ["systemctl", "daemon-reload"] (by simp [commands])
    have hc2 := hall ["systemctl", "enable", "--now", "escpos-printer.socket"]
      (by simp [commands])
    have hc3 := hall ["systemctl", "restart", "escpos-printer.socket"]
      (by simp [commands])
    have ht2 : mainTrace env = [Event.printE banner, Event.globE globPat,
        Event.writeE socketFilePath socketFileContent 420,
        Event.writeE serviceFilePath (serviceFileContent p) 420,
        Event.execE ["systemctl", "daemon-reload"],
        Event.execE ["systemctl", "enable", "--now", "escpos-printer.socket"],
        Event.execE ["systemctl", "restart", "escpos-printer.socket"]] := by
      rw [htr]; simp [commands, runCmds, hc1, hc2, hc3]
    exact ⟨by rw [ht2]; rfl, by rw [ht2]; rfl⟩
  · intro e out hc1
    have ht2 : epsonMainTrace env = [Event.printE epsonBanner,
        Event.writeE epsonSocketFilePath epsonSocketFileContent 420,
        Event.writeE epsonServiceFilePath epsonServiceFileContent 420,
        Event.execE ["systemctl", "daemon-reload"],
        Event.fatalE (epsonCmdFailMsg ["systemctl", "daemon-reload"] e out)] := by
      rw [htre]; simp [epsonCommands, runCmds, hc1]
    exact ⟨by rw [ht2]; rfl, by rw [ht2]; rfl, ⟨_, by rw [ht2]; rfl⟩⟩
  · intro e out hc1 hc2
    have ht2 : epsonMainTrace env = [Event.printE epsonBanner,
        Event.writeE epsonSocketFilePath epsonSocketFileContent 420,
        Event.writeE epsonServiceFilePath epsonServiceFileContent 420,
        Event.execE ["systemctl", "daemon-reload"],
        Event.execE ["systemctl", "enable", "--now", "epson-printer.socket"],
        Event.fatalE (epsonCmdFailMsg
          ["systemctl", "enable", "--now", "epson-printer.socket"] e out)] := by
      rw [htre]; simp [epsonCommands, runCmds, hc1, hc2]
    exact ⟨by rw [ht2]; rfl, by rw [ht2]; rfl, ⟨_, by rw [ht2]; rfl⟩,
      epsonCmdFailMsg_has_err _ e out, epsonCmdFailMsg_has_out _ e out⟩
  · intro e out hc1 hc2 hc3
    have ht2 : epsonMainTrace env = [Event.printE epsonBanner,
        Event.writeE epsonSocketFilePath epsonSocketFileContent 420,
        Event.writeE epsonServiceFilePath epsonServiceFileContent 420,
        Event.execE ["systemctl", "daemon-reload"],
        Event.execE ["systemctl", "enable", "--now", "epson-printer.socket"],
        Event.execE ["systemctl", "restart", "epson-printer.socket"],
        Event.fatalE (epsonCmdFailMsg
          ["systemctl", "restart", "epson-printer.socket"] e out)] := by
      rw [htre]; simp [epsonCommands, runCmds, hc1, hc2, hc3]
    exact ⟨by rw [ht2]; rfl, by rw [ht2]; rfl, ⟨_, by rw [ht2]; rfl⟩⟩
  · intro hall
    have hc1 := hall ["systemctl", "daemon-reload"] (by simp [epsonCommands])
    have hc2 := hall ["systemctl", "enable", "--now", "epson-printer.socket"]
      (by simp [epsonCommands])
    have hc3 := hall ["systemctl", "restart", "epson-printer.socket"]
      (by simp [epsonCommands])
    have ht2 : epsonMainTrace env = [Event.printE epsonBanner,
        Event.writeE epsonSocketFilePath epsonSocketFileContent 420,
        Event.writeE epsonServiceFilePath epsonServiceFileContent 420,
        Event.execE ["systemctl", "daemon-reload"],
        Event.execE ["systemctl", "enable", "--now", "epson-printer.socket"],
        Event.execE ["systemctl", "restart", "epson-printer.socket"]] := by
      rw [htre]; simp [epsonCommands, runCmds, hc1, hc2, hc3]
    exact ⟨by rw [ht2]; rfl, by rw [ht2]; rfl⟩

/-- Any write to the socket path in the ESC/POS trace carries the fixed
constant content. -/
lemma socket_write_content (e : Env) (c : String) :
    (socketFilePath, c) ∈ writeEvents (mainTrace e) → c = socketFileContent := by
  intro hmem
  have hpath : socketFilePath ≠ serviceFilePath := by decide
  rcases mainTrace_shape e with ⟨h, htr⟩ | ⟨h, er, hfp, htr⟩ |
    ⟨h, ps, m, hfp, hsel, htr⟩ | ⟨h, ps, hfp, hsel, htr⟩ |
    ⟨h, ps, p, r, hfp, hsel, htr⟩
  · rw [htr] at hmem; simp at hmem
  · rw [htr] at hmem; simp at hmem
  · rw [htr] at hmem; simp at hmem
  · rw [htr] at hmem; simp at hmem
  · rcases writePhase_shape e p with ⟨er, h1, hwp⟩ | ⟨h1, er, h2, hwp⟩ | ⟨h1, h2, hwp⟩ <;>
      rw [htr, hwp] at hmem <;>
      simp [writeEvents_runCmds, Prod.mk.injEq, hpath] at hmem <;>
      exact hmem

/-- Any write to the service path in the ESC/POS trace carries exactly
the template instantiated at the selected printer. -/
lemma service_write_content (e : Env) (ps : List String) (p : String) (r : Nat)
    (c : String) (hfp : findPrinters e = Except.ok ps)
    (hsel : selectPrinter ps e.input = SelectOutcome.success p r) :
    (serviceFilePath, c) ∈ writeEvents (mainTrace e) → c = serviceFileContent p := by
  intro hmem
  have hpath : serviceFilePath ≠ socketFilePath := by decide
  rcases mainTrace_shape e with ⟨h, htr⟩ | ⟨h, er, hfp2, htr⟩ |
    ⟨h, ps2, m, hfp2, hsel2, htr⟩ | ⟨h, ps2, hfp2, hsel2, htr⟩ |
    ⟨h, ps2, p2, r2, hfp2, hsel2, htr⟩
  · rw [htr] at hmem; simp at hmem
  · rw [htr] at hmem; simp at hmem
  · rw [htr] at hmem; simp at hmem
  · rw [htr] at hmem; simp at hmem
  · rw [hfp] at hfp2
    injection hfp2 with hps
    subst hps
    rw [hsel] at hsel2
    injection hsel2 with hp hr
    subst hp
    rcases writePhase_shape e p with ⟨er, h1, hwp⟩ | ⟨h1, er, h2, hwp⟩ | ⟨h1, h2, hwp⟩ <;>
      rw [htr, hwp] at hmem <;>
      simp [writeEvents_runCmds, Prod.mk.injEq, hpath] at hmem <;>
      exact hmem

/-- Any write to the Epson socket path carries the fixed constant. -/
lemma epson_socket_write_content (e : Env) (c : String) :
    (epsonSocketFilePath, c) ∈ writeEvents (epsonMainTrace e) →
      c = epsonSocketFileContent := by
  intro hmem
  have hpath : epsonSocketFilePath ≠ epsonServiceFilePath := by decide
  rcases epsonMainTrace_shape e with ⟨h, htr⟩ | ⟨h, er, h1, htr⟩ |
    ⟨h, h1, er, h2, htr⟩ | ⟨h, h1, h2, htr⟩ <;>
    rw [htr] at hmem <;>
    simp [writeEvents_runCmds, Prod.mk.injEq, hpath] at hmem <;>
    exact hmem

/-- Any write to the Epson service path carries the fixed constant. -/
lemma epson_service_write_content (e : Env) (c : String) :
    (epsonServiceFilePath, c) ∈ writeEvents (epsonMainTrace e) →
      c = epsonServiceFileContent := by
  intro hmem
  have hpath : epsonServiceFilePath ≠ epsonSocketFilePath := by decide
  rcases epsonMainTrace_shape e with ⟨h, htr⟩ | ⟨h, er, h1, htr⟩ |
    ⟨h, h1, er, h2, htr⟩ | ⟨h, h1, h2, htr⟩ <;>
    rw [htr] at hmem <;>
    simp [writeEvents_runCmds, Prod.mk.injEq, hpath] at hmem <;>
    exact hmem

/-- The numbered listing has one line per printer. -/
lemma numberedLines_length (s : Nat) (ps : List String) :
    (numberedLines s ps).length = ps.length := by
  induction ps generalizing s with
  | nil => rfl
  | cons p rest ih => simp [numberedLines, ih]

/-- The `i`-th line of the numbered listing starting at base `s` is
`(s+i+1). path_i`. -/
lemma numberedLines_getD (ps : List String) (s i : Nat) (hi : i < ps.length) :
    (numberedLines s ps).getD i "" = toString (s + i + 1) ++ ". " ++ ps.getD i "" := by
  induction ps generalizing s i with
  | nil => simp at hi
  | cons p rest ih =>
      cases i with
      | zero => simp [numberedLines]
      | succ j =>
          have hj : j < rest.length := by simpa using hi
          have := ih (s + 1) j hj
          have harith : s + 1 + j + 1 = s + (j + 1) + 1 := by omega
          simpa [numberedLines, harith] using this

/-- Claim C5: for a non-empty list the prompt prints the header followed by
a 1-based numbered line per printer, and an in-range reply `k` as the
single read selects the `k`-th printer (index `k-1`) with no error. -/
theorem selection_numbered_and_kth (printers : List String) (k : Int)
    (hne : printers ≠ []) (hk1 : 1 ≤ k) (hk2 : k ≤ (printers.length : Int)) :
    selectPrompt printers =
      "\nSe encontraron las siguientes impresoras USB:" :: numberedLines 0 printers ∧
    (numberedLines 0 printers).length = printers.length ∧
    (∀ i, i < printers.length →
      (numberedLines 0 printers).getD i "" =
        toString (i + 1) ++ ". " ++ printers.getD i "") ∧
    selectPrinter printers [some k] =
      SelectOutcome.success (printers.getD ((k - 1).toNat) "") 1 := by
  have hlen : printers.length ≠ 0 := by
    simpa [List.length_eq_zero] using hne
  have hval : validChoice printers.length k = true := by
    simp [validChoice, hk1, hk2]
  refine ⟨?_, numberedLines_length 0 printers, ?_, ?_⟩
  · simp [selectPrompt, hlen]
  · intro i hi
    simpa using numberedLines_getD printers 0 i hi
  · simp [selectPrinter, hlen, selectLoop, hval]

/-- Witness for C5: two printers, reply `2`, second printer selected. -/
theorem selection_numbered_and_kth_witness :
    selectPrinter ["/dev/usb/lp0", "/dev/usb/lp1"] [some 2] =
      SelectOutcome.success "/dev/usb/lp1" 1 := by
  have h := selection_numbered_and_kth ["/dev/usb/lp0", "/dev/usb/lp1"] 2
    (by decide) (by decide) (by decide)
  exact h.2.2.2

/-- The selection loop ignores any block of invalid reads: it accepts the
first valid read after them, counting one read per iteration. -/
lemma selectLoop_skips_invalid (printers : List String) (bad : List (Option Int))
    (k : Int) (rest : List (Option Int)) (a : Nat)
    (hbad : ∀ r ∈ bad, invalidRead printers.length r = true)
    (hk : validChoice printers.length k = true) :
    selectLoop printers (bad ++ some k :: rest) a =
      SelectOutcome.success (printers.getD ((k - 1).toNat) "") (a + bad.length + 1) := by
  induction bad generalizing a with
  | nil => simp [selectLoop, hk]
  | cons r bs ih =>
      have hr := hbad r (by simp)
      have hbs : ∀ x ∈ bs, invalidRead printers.length x = true :=
        fun x hx => hbad x (by simp [hx])
      cases r with
      | none =>
          rw [List.cons_append]
          show selectLoop printers (bs ++ some k :: rest) (a + 1) = _
          rw [ih (a + 1) hbs]
          have harith : a + 1 + bs.length + 1 = a + (bs.length + 1) + 1 := by omega
          simp [harith]
      | some c =>
          have hc : validChoice printers.length c = false := by
            simpa [invalidRead] using hr
          rw [List.cons_append]
          show (if validChoice printers.length c then _ else
            selectLoop printers (bs ++ some k :: rest) (a + 1)) = _
          rw [hc]
          simp only [Bool.false_eq_true, if_false]
          rw [ih (a + 1) hbs]
          have harith : a + 1 + bs.length + 1 = a + (bs.length + 1) + 1 := by omega
          simp [harith]

/-- If every read of the stream is invalid, the loop never completes. -/
lemma selectLoop_all_invalid (printers : List String) (inp : List (Option Int))
    (a : Nat) (h : ∀ r ∈ inp, invalidRead printers.length r = true) :
    selectLoop printers inp a = SelectOutcome.hang := by
  induction inp generalizing a with
  | nil => rfl
  | cons r bs ih =>
      have hr := h r (by simp)
      have hbs : ∀ x ∈ bs, invalidRead printers.length x = true :=
        fun x hx => h x (by simp [hx])
      cases r with
      | none => exact ih (a + 1) hbs
      | some c =>
          have hc : validChoice printers.length c = false := by
            simpa [invalidRead] using hr
          show (if validChoice printers.length c then _ else
            selectLoop printers bs (a + 1)) = _
          rw [hc]
          simp only [Bool.false_eq_true, if_false]
          exact ih (a + 1) hbs

/-- Counterexample to claim C6 as stated: the selection does not consume
exactly one integer on every input stream.  With one printer, the stream
`0, 1` costs two reads before completion, and the one-integer stream `0`
never completes at all. -/
theorem single_read_counterexample :
    selectPrinter ["/dev/usb/lp0"] [some 0, some 1] =
      SelectOutcome.success "/dev/usb/lp0" 2 ∧
    selectPrinter ["/dev/usb/lp0"] [some 0] = SelectOutcome.hang := by
  exact ⟨rfl, rfl⟩

/-- Claim C6, amended: the selection loop reads one value per prompt
iteration, rejecting failed or out-of-range reads; it completes exactly
at the first valid read, having consumed the invalid block plus that one
read, and an input stream with no valid read never completes. -/
theorem selection_reads_until_valid (printers : List String)
    (bad : List (Option Int)) (k : Int) (rest : List (Option Int))
    (hne : printers ≠ [])
    (hbad : ∀ r ∈ bad, invalidRead printers.length r = true)
    (hk : validChoice printers.length k = true) :
    selectPrinter printers (bad ++ some k :: rest) =
      SelectOutcome.success (printers.getD ((k - 1).toNat) "") (bad.length + 1) ∧
    (∀ inp, (∀ r ∈ inp, invalidRead printers.length r = true) →
      selectPrinter printers inp = SelectOutcome.hang) := by
  have hlen : printers.length ≠ 0 := by
    simpa [List.length_eq_zero] using hne
  constructor
  · have := selectLoop_skips_invalid printers bad k rest 0 hbad hk
    simpa [selectPrinter, hlen] using this
  · intro inp hinp
    have := selectLoop_all_invalid printers inp 0 hinp
    simpa [selectPrinter, hlen] using this

/-- Witness for the amended C6: one printer, reads `error, 5, 1`: the two
invalid reads are re-prompted and the third read selects the printer. -/
theorem selection_reads_until_valid_witness :
    selectPrinter ["/dev/usb/lp0"] [none, some 5, some 1] =
      SelectOutcome.success "/dev/usb/lp0" 3 := by
  have h := selection_reads_until_valid ["/dev/usb/lp0"] [none, some 5] 1 []
    (by decide) (by decide) (by decide)
  exact h.1

/-- Counterexample to claim C7 as stated: the socket unit content is not a
template instantiated at run time — no two runs can ever write different
bytes to the socket unit path, because the content is one fixed constant. -/
theorem runtime_templates_counterexample :
    ¬ ∃ e1 e2 c1 c2, (socketFilePath, c1) ∈ writeEvents (mainTrace e1) ∧
      (socketFilePath, c2) ∈ writeEvents (mainTrace e2) ∧ c1 ≠ c2 := by
  rintro ⟨e1, e2, c1, c2, h1, h2, hne⟩
  exact hne ((socket_write_content e1 c1 h1).trans
    (socket_write_content e2 c2 h2).symm)

/-- Claim C7, amended: only the service unit content of the ESC/POS variant
is a string template instantiated at run time — it is the fixed template
text around the selected printer path and genuinely varies between runs —
while the socket unit content is a fixed constant in every run (and in
the Epson variant both unit contents are fixed constants). -/
theorem template_instantiation_amended :
    (∀ p, serviceFileContent p = serviceHead ++ p ++ serviceTail) ∧
    (∃ e1 e2 c1 c2, (serviceFilePath, c1) ∈ writeEvents (mainTrace e1) ∧
      (serviceFilePath, c2) ∈ writeEvents (mainTrace e2) ∧ c1 ≠ c2) ∧
    (∀ e c, (socketFilePath, c) ∈ writeEvents (mainTrace e) → c = socketFileContent) ∧
    (∀ e c, (epsonSocketFilePath, c) ∈ writeEvents (epsonMainTrace e) →
      c = epsonSocketFileContent) ∧
    (∀ e c, (epsonServiceFilePath, c) ∈ writeEvents (epsonMainTrace e) →
      c = epsonServiceFileContent) := by
  refine ⟨fun _ => rfl, ?_, socket_write_content,
    epson_socket_write_content, epson_service_write_content⟩
  refine ⟨baseEnv, { baseEnv with glob := fun _ => Except.ok ["/dev/usb/lp1"] },
    serviceFileContent "/dev/usb/lp0", serviceFileContent "/dev/usb/lp1",
    ?_, ?_, by decide⟩
  · have hw : writeEvents (mainTrace baseEnv) =
        [(socketFilePath, socketFileContent),
         (serviceFilePath, serviceFileContent "/dev/usb/lp0")] := by decide
    rw [hw]; simp
  · have hw : writeEvents (mainTrace
        { baseEnv with glob := fun _ => Except.ok ["/dev/usb/lp1"] }) =
        [(socketFilePath, socketFileContent),
         (serviceFilePath, serviceFileContent "/dev/usb/lp1")] := by decide
    rw [hw]; simp

/-- Witness for the amended C7 at a concrete printer path. -/
theorem template_instantiation_amended_witness :
    serviceFileContent "/dev/usb/lp0" =
      serviceHead ++ "/dev/usb/lp0" ++ serviceTail :=
  template_instantiation_amended.1 "/dev/usb/lp0"

/-- The tail of the service template around the `StandardInput` line. -/
lemma serviceTail_split :
    serviceTail.data = '\n' :: ("StandardInput=socket".data ++ ['\n']) := by decide

/-- The instantiated service unit always declares `StandardInput=socket`. -/
lemma serviceContent_std_input (p : String) :
    hasSubstr (serviceFileContent p) "StandardInput=socket" := by
  refine ⟨(serviceHead ++ p).data ++ ['\n'], ['\n'], ?_⟩
  simp [serviceFileContent, strData_append, serviceTail_split]

/-- Claim C8: the service unit written is a systemd template service: its
file name contains `@` (`escpos-printer@.service` resp.
`epson-printer@.service`), its content declares `StandardInput=socket`,
and the paired socket unit declares `Accept=yes`, in both variants. -/
theorem template_service_unit (p : String) :
    serviceFilePath = "/etc/systemd/system/escpos-printer@.service" ∧
    hasSubstr serviceFilePath "@" ∧
    hasSubstr (serviceFileContent p) "StandardInput=socket" ∧
    hasSubstr socketFileContent "Accept=yes" ∧
    epsonServiceFilePath = "/etc/systemd/system/epson-printer@.service" ∧
    hasSubstr epsonServiceFilePath "@" ∧
    hasSubstr epsonServiceFileContent "StandardInput=socket" ∧
    hasSubstr epsonSocketFileContent "Accept=yes" := by
  refine ⟨rfl, ?_, serviceContent_std_input p, ?_, rfl, ?_, ?_, ?_⟩
  · exact ⟨"/etc/systemd/system/escpos-printer".data, ".service".data, by decide⟩
  · exact ⟨"[Unit]\nDescription=ESC/POS Printer Socket\n\n[Socket]\nListenStream=0.0.0.0:9100\n".data,
      "\n\n[Install]\nWantedBy=sockets.target\n".data, by decide⟩
  · exact ⟨"/etc/systemd/system/epson-printer".data, ".service".data, by decide⟩
  · exact ⟨"[Unit]\nDescription=Epson Printer Service\n\n[Service]\nExecStart=-/usr/bin/tee /dev/null > /dev/usb/lp0\n".data,
      "\n".data, by decide⟩
  · exact ⟨"[Unit]\nDescription=Epson Printer Socket\n\n[Socket]\nListenStream=0.0.0.0:9100\n".data,
      "\n\n[Install]\nWantedBy=sockets.target\n".data, by decide⟩

/-- Witness for C8 at a concrete printer path. -/
theorem template_service_unit_witness :
    hasSubstr (serviceFileContent "/dev/usb/lp0") "StandardInput=socket" :=
  (template_service_unit "/dev/usb/lp0").2.2.1

/-- Claim C10: the socket unit bytes written are one fixed constant — the
same in every run, whatever is discovered, selected or typed — and the
service unit bytes depend solely on the selected printer path, which is
inserted verbatim, unescaped, after the fixed `ExecStart=.../tee` text. -/
theorem socket_constant_service_from_path :
    (∀ e c, (socketFilePath, c) ∈ writeEvents (mainTrace e) → c = socketFileContent) ∧
    (∀ e ps p r c, findPrinters e = Except.ok ps →
      selectPrinter ps e.input = SelectOutcome.success p r →
      (serviceFilePath, c) ∈ writeEvents (mainTrace e) → c = serviceFileContent p) ∧
    (∀ p, serviceFileContent p = serviceHead ++ p ++ serviceTail) ∧
    serviceHead =
      "[Unit]\nDescription=ESC/POS Printer Service\n\n[Service]\nExecStart=-/usr/bin/tee /dev/null > " :=
  ⟨socket_write_content,
   fun e ps p r c hfp hsel => service_write_content e ps p r c hfp hsel,
   fun _ => rfl, rfl⟩

/-- Witness for C10: in the concrete base run, the literal bytes written
to the service unit are exactly the template instantiated at
`/dev/usb/lp0`. -/
theorem socket_constant_service_from_path_witness :
    "[Unit]\nDescription=ESC/POS Printer Service\n\n[Service]\nExecStart=-/usr/bin/tee /dev/null > /dev/usb/lp0\nStandardInput=socket\n"
      = serviceFileContent "/dev/usb/lp0" :=
  socket_constant_service_from_path.2.1 baseEnv ["/dev/usb/lp0"] "/dev/usb/lp0" 1
    "[Unit]\nDescription=ESC/POS Printer Service\n\n[Service]\nExecStart=-/usr/bin/tee /dev/null > /dev/usb/lp0\nStandardInput=socket\n"
    rfl rfl (by decide)

/-- Witness for C2: a concrete root run whose second `systemctl` command
fails executes exactly the first two commands and stops. -/
theorem systemctl_sequence_fail_fast_witness :
    execEvents (mainTrace { baseEnv with cmdResult := failSecondCmd }) =
      [["systemctl", "daemon-reload"],
       ["systemctl", "enable", "--now", "escpos-printer.socket"]] := by
  have h := systemctl_sequence_fail_fast
    { baseEnv with cmdResult := failSecondCmd }
    ["/dev/usb/lp0"] "/dev/usb/lp0" 1 rfl rfl rfl rfl rfl rfl rfl
  exact (h.2.2.2.1 "exit status 1" "Failed to enable unit" rfl rfl).1

/-- Claim C3: whenever the effective uid is not 0, both variants terminate
fatally at the privilege check: the trace is just the opening banner and
the fatal message, so no glob, no file write and no external command ever
happens — the privilege check is the first step performed. -/
theorem privilege_check_first (env : Env) (h : env.euid ≠ 0) :
    mainTrace env = [Event.printE banner, Event.fatalE rootMsg] ∧
    epsonMainTrace env = [Event.printE epsonBanner, Event.fatalE epsonRootMsg] ∧
    globEvents (mainTrace env) = [] ∧
    writeEvents (mainTrace env) = [] ∧
    execEvents (mainTrace env) = [] ∧
    endsFatal (mainTrace env) ∧
    writeEvents (epsonMainTrace env) = [] ∧
    execEvents (epsonMainTrace env) = [] ∧
    endsFatal (epsonMainTrace env) := by
  have h1 : mainTrace env = [Event.printE banner, Event.fatalE rootMsg] := by
    simp [mainTrace, h]
  have h2 : epsonMainTrace env = [Event.printE epsonBanner, Event.fatalE epsonRootMsg] := by
    simp [epsonMainTrace, h]
  refine ⟨h1, h2, ?_, ?_, ?_, ⟨rootMsg, ?_⟩, ?_, ?_, ⟨epsonRootMsg, ?_⟩⟩
  · rw [h1]; rfl
  · rw [h1]; rfl
  · rw [h1]; rfl
  · rw [h1]; rfl
  · rw [h2]; rfl
  · rw [h2]; rfl
  · rw [h2]; rfl

/-- Witness for C3 at a concrete non-root environment. -/
theorem privilege_check_first_witness :
    writeEvents (mainTrace { baseEnv with euid := 1000 }) = [] ∧
    execEvents (mainTrace { baseEnv with euid := 1000 }) = [] ∧
    execEvents (epsonMainTrace { baseEnv with euid := 1000 }) = [] := by
  have h := privilege_check_first { baseEnv with euid := 1000 } (by decide)
  exact ⟨h.2.2.2.1, h.2.2.2.2.1, h.2.2.2.2.2.2.2.1⟩

/-- Claim C4: discovery globs exactly `/dev/usb/lp*`; on a successful glob,
`findPrinters` returns precisely the matches that stat successfully as
character devices, in glob order (a sublist of the matches); matches whose
stat fails, or that are not character devices, are silently dropped. -/
theorem findPrinters_glob_filter (env : Env) (ms : List String)
    (h : env.glob globPat = Except.ok ms) :
    globPat = "/dev/usb/lp*" ∧
    findPrinters env = Except.ok (ms.filter (isCharDev env)) ∧
    (∀ x, x ∈ ms.filter (isCharDev env) ↔ x ∈ ms ∧ isCharDev env x = true) ∧
    (∀ x, isCharDev env x = true ↔
      ∃ info, env.stat x = Except.ok info ∧ info.mode.land modeCharDevice ≠ 0) ∧
    List.Sublist (ms.filter (isCharDev env)) ms := by
  refine ⟨rfl, ?_, ?_, ?_, List.filter_sublist ms⟩
  · simp [findPrinters, h]
  · intro x; simp [List.mem_filter]
  · intro x
    unfold isCharDev
    cases hs : env.stat x with
    | error e => simp [hs]
    | ok info => simp [hs]

/-- Witness for C4: two glob matches, of which only `/dev/usb/lp0` stats
as a character device; discovery keeps exactly it. -/
theorem findPrinters_glob_filter_witness :
    findPrinters
      { baseEnv with
        glob := fun _ => Except.ok ["/dev/usb/lp0", "/dev/usb/lp1"],
        stat := fun p => if p = "/dev/usb/lp0" then Except.ok ⟨modeCharDevice⟩
                         else Except.error "no such device" } =
      Except.ok ["/dev/usb/lp0"] := by
  have h := findPrinters_glob_filter
    { baseEnv with
      glob := fun _ => Except.ok ["/dev/usb/lp0", "/dev/usb/lp1"],
      stat := fun p => if p = "/dev/usb/lp0" then Except.ok ⟨modeCharDevice⟩
                       else Except.error "no such device" }
    ["/dev/usb/lp0", "/dev/usb/lp1"] rfl
  have h2 := h.2.1
  rw [h2]
  rfl

/-- Claim C9: on an empty printer list `selectPrinter` returns its error
without printing a prompt and without inspecting the input stream; in a
root run whose discovery yields no printer, `main` terminates fatally
before any file write and before any external command. -/
theorem empty_discovery_aborts (env : Env) (h0 : env.euid = 0)
    (h : findPrinters env = Except.ok []) :
    (∀ inp, selectPrinter [] inp = SelectOutcome.failure noPrinterMsg) ∧
    selectPrompt [] = [] ∧
    mainTrace env =
      [Event.printE banner, Event.globE globPat,
       Event.fatalE ("Error: " ++ noPrinterMsg)] ∧
    writeEvents (mainTrace env) = [] ∧
    execEvents (mainTrace env) = [] ∧
    endsFatal (mainTrace env) := by
  have hsel : ∀ inp, selectPrinter [] inp = SelectOutcome.failure noPrinterMsg := by
    intro inp; rfl
  have htr : mainTrace env =
      [Event.printE banner, Event.globE globPat,
       Event.fatalE ("Error: " ++ noPrinterMsg)] := by
    simp [mainTrace, h0, h, hsel]
  refine ⟨hsel, rfl, htr, ?_, ?_, ⟨"Error: " ++ noPrinterMsg, ?_⟩⟩
  · rw [htr]; rfl
  · rw [htr]; rfl
  · rw [htr]; rfl

/-- Witness for C9 at a concrete root environment whose glob matches
nothing. -/
theorem empty_discovery_aborts_witness :
    writeEvents (mainTrace { baseEnv with glob := fun _ => Except.ok [] }) = [] ∧
    execEvents (mainTrace { baseEnv with glob := fun _ => Except.ok [] }) = [] := by
  have h := empty_discovery_aborts { baseEnv with glob := fun _ => Except.ok [] }
    rfl rfl
  exact ⟨h.2.2.2.1, h.2.2.2.2.1⟩

end EpsonTmx
